import Mathlib

/-!
# Verification of jupyterlite-remote-server

A shallow embedding of the settings-resolution and resource-URL-rewriting
logic of the `jupyterlite-remote-server` extension.

The repository consists of `src/index.ts` (the plugin registrations, which
fix the `serviceType` each service-manager plugin resolves with) together
with two modules, `serversettings.ts` (the `RemoteServerSettings` resolver)
and `kernelspec.ts` (the `RemoteKernelSpecManager` resource-URL rewriter),
whose sources are not available here; those two components are modelled
from the specification's description of their algorithms.
-/

namespace RemoteServer

/-- The closed enumeration of logical service groups, plus the `default`
pseudo-type used only by the top-level server-settings plugin
(`src/index.ts` passes exactly these strings as `serviceType`). -/
inductive ServiceType where
  | contents
  | kernels
  | settings
  | workspaces
  | users
  | events
  | terminals
  | nbconvert
  | configSection
  | defaultType
  deriving DecidableEq, Repr

/-- The capitalised key fragment `<Service>` used to form the per-service
configuration keys `remote<Service>BaseUrl` / `remote<Service>Token`.
The `default` pseudo-type has no per-service keys. -/
def ServiceType.keyName : ServiceType → Option String
  | .contents => some "Contents"
  | .kernels => some "Kernels"
  | .settings => some "Settings"
  | .workspaces => some "Workspaces"
  | .users => some "Users"
  | .events => some "Events"
  | .terminals => some "Terminals"
  | .nbconvert => some "Nbconvert"
  | .configSection => some "ConfigSection"
  | .defaultType => none

/-- Modelled from the spec: the process-wide configuration store
(PageConfig), an immutable-for-the-session mapping from string keys to
string values, with `appendToken` read as an optional boolean. -/
structure Config where
  getString : String → Option String
  getBool : String → Option Bool

/-- The configuration with no key set at all. -/
def emptyConfig : Config := ⟨fun _ => none, fun _ => none⟩

/-- A configuration built from an association list of string keys and an
optional boolean `appendToken` value. -/
def Config.ofList (pairs : List (String × String)) (apTok : Option Bool) : Config :=
  ⟨fun k => pairs.lookup k, fun k => if k = "appendToken" then apTok else none⟩

/-- The per-service-tier base URL key value `remote<Service>BaseUrl` for a
service (none for the `default` pseudo-type, which has no such key). -/
def Config.serviceBaseUrl (c : Config) (s : ServiceType) : Option String :=
  match s.keyName with
  | some n => c.getString ("remote" ++ n ++ "BaseUrl")
  | none => none

/-- The per-service-tier token key value `remote<Service>Token` for a
service (none for the `default` pseudo-type, which has no such key). -/
def Config.serviceToken (c : Config) (s : ServiceType) : Option String :=
  match s.keyName with
  | some n => c.getString ("remote" ++ n ++ "Token")
  | none => none

/-- A configured value counts only when present and non-empty. -/
def nonEmpty (o : Option String) : Option String :=
  match o with
  | some v => if v = "" then none else some v
  | none => none

/-- Modelled from the spec: the ordered first-match fallback chain used by
the resolver for both base URLs and tokens — per-service tier, then
default tier, then a final fallback value. -/
def pick (svc dflt : Option String) (fallback : String) : String :=
  match nonEmpty svc with
  | some v => v
  | none =>
    match nonEmpty dflt with
    | some v => v
    | none => fallback

/-! ## URL parsing

A minimal model of URL syntax: a string is an absolute URL when it starts
with a scheme (a letter followed by letters, digits, `+`, `-` or `.`,
terminated by a colon); its origin is `scheme://host` where the host part
runs up to the first `/`, `?` or `#`. -/

/-- Characters allowed in a URL scheme after the leading letter. -/
def isSchemeChar (c : Char) : Bool :=
  c.isAlpha || c.isDigit || c == '+' || c == '-' || c == '.'

/-- Split a character list at the first colon, provided everything before
it is made of scheme characters; returns the scheme and the remainder. -/
def takeScheme : List Char → Option (List Char × List Char)
  | [] => none
  | c :: cs =>
    if c = ':' then some ([], cs)
    else if isSchemeChar c then
      match takeScheme cs with
      | some (sch, rest) => some (c :: sch, rest)
      | none => none
    else none

/-- A character list starts with a URL scheme: a nonempty run of scheme
characters, starting with a letter, terminated by a colon. -/
def hasSchemeL (l : List Char) : Bool :=
  match takeScheme l with
  | some (c :: _, _) => c.isAlpha
  | _ => false

/-- A string already parses as an absolute URL (has a scheme). -/
def hasScheme (s : String) : Bool := hasSchemeL s.data

/-- Characters that may appear in the host part of a URL. -/
def isHostChar (c : Char) : Bool :=
  !(c == '/' || c == '?' || c == '#')

/-- The origin (scheme + host + port) of a URL given as a character list:
`scheme://host` with a nonempty host, or none when the list does not
parse as a URL with an authority. -/
def parseOriginL (l : List Char) : Option (List Char) :=
  match takeScheme l with
  | some (c :: sch, '/' :: '/' :: rest) =>
    if c.isAlpha then
      let host := rest.takeWhile isHostChar
      if host = [] then none
      else some ((c :: sch) ++ ':' :: '/' :: '/' :: host)
    else none
  | _ => none

/-- The origin (scheme + host + port) of a URL, or none when the string
cannot be parsed as a URL. -/
def parseOrigin (s : String) : Option String :=
  (parseOriginL s.data).map (fun l => ⟨l⟩)

/-! ## Settings Resolver

Modelled from the spec: `resolve(serviceType) -> ResolvedSettings`, a pure
function of the configuration snapshot, with the hosting application's own
origin passed explicitly as a parameter. -/

/-- The resolver's output triple. -/
structure ResolvedSettings where
  baseUrl : String
  token : String
  appendToken : Bool
  deriving DecidableEq, Repr

/-- Modelled from the spec: base-URL resolution — `remote<Service>BaseUrl`
when present and non-empty, else `remoteBaseUrl` when present and
non-empty, else the hosting application's own origin. -/
def resolveBaseUrl (c : Config) (appOrigin : String) (s : ServiceType) : String :=
  pick (c.serviceBaseUrl s) (c.getString "remoteBaseUrl") appOrigin

/-- Modelled from the spec: token resolution — `remote<Service>Token`,
then `remoteToken`, then the empty string (no authentication). -/
def resolveToken (c : Config) (s : ServiceType) : String :=
  pick (c.serviceToken s) (c.getString "remoteToken") ""

/-- Modelled from the spec: the append-token decision — an explicitly set
default-tier `appendToken` boolean is used unconditionally for every
service; otherwise auto-detect by comparing the resolved base URL's
origin with the hosting application's own origin. -/
def resolveAppendToken (c : Config) (appOrigin : String) (s : ServiceType) : Bool :=
  match c.getBool "appendToken" with
  | some b => b
  | none => !(parseOrigin (resolveBaseUrl c appOrigin s) == parseOrigin appOrigin)

/-- Modelled from the spec: the full resolver, combining the two
independent fallback chains with the append-token decision. -/
def resolve (c : Config) (appOrigin : String) (s : ServiceType) : ResolvedSettings :=
  { baseUrl := resolveBaseUrl c appOrigin s
    token := resolveToken c s
    appendToken := resolveAppendToken c appOrigin s }

/-! ## Resource URL Rewriter

Modelled from the spec: `rewrite(resourcePath, baseUrl)` as implemented by
`RemoteKernelSpecManager` in `kernelspec.ts` (not under src/): empty and
already-absolute paths are returned unchanged; any other path is joined to
the base URL's origin with exactly one separating slash; a base URL that
cannot be parsed signals a configuration error. -/

/-- Remove one leading slash, if any. -/
def dropLeadingSlashL : List Char → List Char
  | '/' :: rest => rest
  | l => l

/-- Remove one leading slash of a string, if any. -/
def dropLeadingSlash (s : String) : String := ⟨dropLeadingSlashL s.data⟩

/-- Modelled from the spec: the resource-URL rewriting algorithm, on
character lists. -/
def rewriteL (p : List Char) (b : List Char) : Except String (List Char) :=
  if p = [] then .ok p
  else if hasSchemeL p then .ok p
  else
    match parseOriginL b with
    | some o => .ok (o ++ '/' :: dropLeadingSlashL p)
    | none => .error "Invalid base URL"

/-- Modelled from the spec: `rewrite(resourcePath, baseUrl)`. -/
def rewrite (p b : String) : Except String String :=
  (rewriteL p.data b.data).map (fun l => ⟨l⟩)

/-! ## Derived WebSocket URL

Modelled from the spec: the WebSocket URL is the resolved base URL with
its scheme switched (http→ws, https→wss) and, when `appendToken` resolved
true, the token appended as the `token` query parameter; a base URL that
cannot be parsed signals a configuration error. -/

/-- Switch a leading `http` to `ws` (which also turns `https` into
`wss`). -/
def switchHttpWs : List Char → List Char
  | 'h' :: 't' :: 't' :: 'p' :: rest => 'w' :: 's' :: rest
  | l => l

/-- Modelled from the spec: WebSocket URL derivation on character lists. -/
def deriveWsUrlL (b tok : List Char) (append : Bool) : Except String (List Char) :=
  match parseOriginL b with
  | none => .error "Invalid base URL"
  | some _ =>
    .ok (if append
      then switchHttpWs b ++ '?' :: 't' :: 'o' :: 'k' :: 'e' :: 'n' :: '=' :: tok
      else switchHttpWs b)

/-- Modelled from the spec: `wsUrl` derivation from the resolved base URL,
token and append-token decision. -/
def deriveWsUrl (b tok : String) (append : Bool) : Except String String :=
  (deriveWsUrlL b.data tok.data append).map (fun l => ⟨l⟩)

/-! ## Plugin registrations (`src/index.ts`)

Each plugin in `src/index.ts` constructs a `RemoteServerSettings` with a
fixed `serviceType`; the config-section-manager plugin additionally sets
the process-wide config-section-manager singleton. -/

/-- One `ServiceManagerPlugin` registration from `src/index.ts`: its id,
the `serviceType` it passes to `RemoteServerSettings`, and whether its
activation sets the global config-section manager. -/
structure PluginDef where
  id : String
  serviceType : ServiceType
  setsConfigSectionManager : Bool
  deriving DecidableEq, Repr

/-- The thirteen plugins exported by `src/index.ts`, in order, with the
`serviceType` each passes to `RemoteServerSettings`. -/
def plugins : List PluginDef :=
  [ ⟨"jupyterlite-remote-server:server-settings", .defaultType, false⟩,
    ⟨"jupyterlite-remote-server:default-drive", .contents, false⟩,
    ⟨"jupyterlite-remote-server:contents-manager", .contents, false⟩,
    ⟨"jupyterlite-remote-server:kernel-manager", .kernels, false⟩,
    ⟨"jupyterlite-remote-server:kernel-spec-manager", .kernels, false⟩,
    ⟨"jupyterlite-remote-server:session-manager", .kernels, false⟩,
    ⟨"jupyterlite-remote-server:setting-manager", .settings, false⟩,
    ⟨"jupyterlite-remote-server:workspace-manager", .workspaces, false⟩,
    ⟨"jupyterlite-remote-server:user-manager", .users, false⟩,
    ⟨"jupyterlite-remote-server:event-manager", .events, false⟩,
    ⟨"jupyterlite-remote-server:config-section-manager", .configSection, true⟩,
    ⟨"jupyterlite-remote-server:nbconvert-manager", .nbconvert, false⟩,
    ⟨"jupyterlite-remote-server:terminal-manager", .terminals, false⟩ ]

/-- Modelled from the spec: the single-assignment registration guard of
the process-wide config-section-manager singleton (the
`ConfigSection._setConfigSectionManager` setter called from
`src/index.ts`, whose implementation is not under src/): registering into
an empty slot succeeds; a second registration attempt fails with an
explicit error instead of silently overwriting. -/
def setConfigSectionManager {M : Type} (state : Option M) (m : M) :
    Except String (Option M) :=
  match state with
  | some _ => .error "ConfigSectionManager already set"
  | none => .ok (some m)

/-! ## Helper lemmas about the fallback chain -/

theorem nonEmpty_some (v : String) (h : v ≠ "") : nonEmpty (some v) = some v := by
  simp [nonEmpty, h]

theorem nonEmpty_none_of (o : Option String) (h : o = none ∨ o = some "") :
    nonEmpty o = none := by
  rcases h with h | h <;> simp [h, nonEmpty]

theorem pick_first (v : String) (h : v ≠ "") (d : Option String) (f : String) :
    pick (some v) d f = v := by
  simp [pick, nonEmpty_some v h]

theorem pick_second (o : Option String) (ho : o = none ∨ o = some "")
    (v : String) (h : v ≠ "") (f : String) :
    pick o (some v) f = v := by
  simp [pick, nonEmpty_none_of o ho, nonEmpty_some v h]

theorem pick_fallback (o d : Option String) (ho : o = none ∨ o = some "")
    (hd : d = none ∨ d = some "") (f : String) :
    pick o d f = f := by
  simp [pick, nonEmpty_none_of o ho, nonEmpty_none_of d hd]

theorem resolveBaseUrl_cases (c : Config) (ao : String) (s : ServiceType) :
    (∀ v, c.serviceBaseUrl s = some v → v ≠ "" → resolveBaseUrl c ao s = v) ∧
    ((c.serviceBaseUrl s = none ∨ c.serviceBaseUrl s = some "") →
      ∀ w, c.getString "remoteBaseUrl" = some w → w ≠ "" → resolveBaseUrl c ao s = w) ∧
    ((c.serviceBaseUrl s = none ∨ c.serviceBaseUrl s = some "") →
      (c.getString "remoteBaseUrl" = none ∨ c.getString "remoteBaseUrl" = some "") →
      resolveBaseUrl c ao s = ao) := by
  refine ⟨fun v hv hne => ?_, fun h1 w hw hne => ?_, fun h1 h2 => ?_⟩
  · rw [resolveBaseUrl, hv, pick_first v hne]
  · rw [resolveBaseUrl, hw, pick_second _ h1 w hne]
  · rw [resolveBaseUrl, pick_fallback _ _ h1 h2]

theorem resolveToken_cases (c : Config) (s : ServiceType) :
    (∀ t, c.serviceToken s = some t → t ≠ "" → resolveToken c s = t) ∧
    ((c.serviceToken s = none ∨ c.serviceToken s = some "") →
      ∀ t, c.getString "remoteToken" = some t → t ≠ "" → resolveToken c s = t) ∧
    ((c.serviceToken s = none ∨ c.serviceToken s = some "") →
      (c.getString "remoteToken" = none ∨ c.getString "remoteToken" = some "") →
      resolveToken c s = "") := by
  refine ⟨fun t ht hne => ?_, fun h1 t ht hne => ?_, fun h1 h2 => ?_⟩
  · rw [resolveToken, ht, pick_first t hne]
  · rw [resolveToken, ht, pick_second _ h1 t hne]
  · rw [resolveToken, pick_fallback _ _ h1 h2]

/-! ## Claims about the Settings Resolver -/

/-- C1: for every ServiceType, the resolved `appendToken` is the
configured default-tier `appendToken` value whenever that key is set (the
same value for every service); otherwise it is auto-detected as true iff
the origin of the resolved base URL differs from the hosting
application's own origin. -/
theorem claim_C1 (c : Config) (ao : String) (s : ServiceType) :
    (∀ b, c.getBool "appendToken" = some b → (resolve c ao s).appendToken = b) ∧
    (c.getBool "appendToken" = none →
      ((resolve c ao s).appendToken = true ↔
        parseOrigin (resolve c ao s).baseUrl ≠ parseOrigin ao)) := by
  constructor
  · intro b hb
    simp [resolve, resolveAppendToken, hb]
  · intro hb
    simp [resolve, resolveAppendToken, hb]

/-- Witness for C1 at a concrete configuration: `appendToken` explicitly
set to true is used, and with it absent it is auto-detected from the
origins. -/
theorem claim_C1_witness :
    (resolve (Config.ofList [] (some true)) "http://a:1" ServiceType.kernels).appendToken
        = true ∧
    ((resolve (Config.ofList [("remoteBaseUrl", "http://b:2")] none)
        "http://a:1" ServiceType.kernels).appendToken = true ↔
      parseOrigin (resolve (Config.ofList [("remoteBaseUrl", "http://b:2")] none)
        "http://a:1" ServiceType.kernels).baseUrl ≠ parseOrigin "http://a:1") :=
  ⟨(claim_C1 (Config.ofList [] (some true)) "http://a:1" ServiceType.kernels).1 true rfl,
   (claim_C1 (Config.ofList [("remoteBaseUrl", "http://b:2")] none)
     "http://a:1" ServiceType.kernels).2 rfl⟩

/-- C2: for every ServiceType, `resolve(service).baseUrl` follows the
ordered first-match chain — a present, non-empty `remote<Service>BaseUrl`
wins regardless of `remoteBaseUrl`; else a present, non-empty
`remoteBaseUrl`; else the hosting application's own origin. -/
theorem claim_C2 (c : Config) (ao : String) (s : ServiceType) :
    (∀ v, c.serviceBaseUrl s = some v → v ≠ "" → (resolve c ao s).baseUrl = v) ∧
    ((c.serviceBaseUrl s = none ∨ c.serviceBaseUrl s = some "") →
      ∀ w, c.getString "remoteBaseUrl" = some w → w ≠ "" →
        (resolve c ao s).baseUrl = w) ∧
    ((c.serviceBaseUrl s = none ∨ c.serviceBaseUrl s = some "") →
      (c.getString "remoteBaseUrl" = none ∨ c.getString "remoteBaseUrl" = some "") →
      (resolve c ao s).baseUrl = ao) := by
  have h := resolveBaseUrl_cases c ao s
  exact ⟨fun v hv hne => h.1 v hv hne,
         fun h1 w hw hne => h.2.1 h1 w hw hne,
         fun h1 h2 => h.2.2 h1 h2⟩

/-- Witness for C2 at the advanced configuration of the README: the
per-service kernels base URL wins over the default one for the kernels
service, the contents service falls back to the default, and an
unconfigured service falls back to the app origin. -/
theorem claim_C2_witness :
    (resolve (Config.ofList [("remoteBaseUrl", "http://a:8888"),
        ("remoteKernelsBaseUrl", "http://b:9999")] none)
      "http://a:8888" ServiceType.kernels).baseUrl = "http://b:9999" ∧
    (resolve (Config.ofList [("remoteBaseUrl", "http://a:8888"),
        ("remoteKernelsBaseUrl", "http://b:9999")] none)
      "http://a:8888" ServiceType.contents).baseUrl = "http://a:8888" ∧
    (resolve emptyConfig "http://a:8888" ServiceType.users).baseUrl = "http://a:8888" :=
  ⟨(claim_C2 (Config.ofList [("remoteBaseUrl", "http://a:8888"),
        ("remoteKernelsBaseUrl", "http://b:9999")] none)
      "http://a:8888" ServiceType.kernels).1 "http://b:9999" rfl (by decide),
   (claim_C2 (Config.ofList [("remoteBaseUrl", "http://a:8888"),
        ("remoteKernelsBaseUrl", "http://b:9999")] none)
      "http://a:8888" ServiceType.contents).2.1 (Or.inl rfl) "http://a:8888" rfl (by decide),
   (claim_C2 emptyConfig "http://a:8888" ServiceType.users).2.2 (Or.inl rfl) (Or.inl rfl)⟩

/-- C3: resolution never fails — when neither the per-service nor the
default base URL is set (to a non-empty value), the resolved base URL is
the hosting application's own origin, a well-formed absolute URL that is
never empty, and with no token configured the token resolves to the empty
string. -/
theorem claim_C3 (c : Config) (ao : String) (s : ServiceType)
    (hb1 : c.serviceBaseUrl s = none ∨ c.serviceBaseUrl s = some "")
    (hb2 : c.getString "remoteBaseUrl" = none ∨ c.getString "remoteBaseUrl" = some "")
    (hao : parseOrigin ao = some ao) :
    (resolve c ao s).baseUrl = ao ∧
    (resolve c ao s).baseUrl ≠ "" ∧
    (parseOrigin (resolve c ao s).baseUrl).isSome = true ∧
    ((c.serviceToken s = none ∨ c.serviceToken s = some "") →
      (c.getString "remoteToken" = none ∨ c.getString "remoteToken" = some "") →
      (resolve c ao s).token = "") := by
  have hbase : (resolve c ao s).baseUrl = ao :=
    (resolveBaseUrl_cases c ao s).2.2 hb1 hb2
  have hne : ao ≠ "" := by
    intro h
    rw [h] at hao
    simp [parseOrigin, parseOriginL, takeScheme] at hao
  refine ⟨hbase, by rw [hbase]; exact hne, by rw [hbase, hao]; rfl, fun ht1 ht2 => ?_⟩
  exact (resolveToken_cases c s).2.2 ht1 ht2

/-- Witness for C3 with the empty configuration and a concrete hosting
origin. -/
theorem claim_C3_witness :
    (resolve emptyConfig "http://a:8888" ServiceType.contents).baseUrl = "http://a:8888" ∧
    (resolve emptyConfig "http://a:8888" ServiceType.contents).baseUrl ≠ "" ∧
    (parseOrigin (resolve emptyConfig "http://a:8888" ServiceType.contents).baseUrl).isSome
      = true ∧
    (resolve emptyConfig "http://a:8888" ServiceType.contents).token = "" := by
  have h := claim_C3 emptyConfig "http://a:8888" ServiceType.contents
    (Or.inl rfl) (Or.inl rfl) (by decide)
  exact ⟨h.1, h.2.1, h.2.2.1, h.2.2.2 (Or.inl rfl) (Or.inl rfl)⟩

/-- C4: for every ServiceType the token is resolved through its own
three-step chain (`remote<Service>Token`, then `remoteToken`, then the
empty string), independently of the base-URL chain: the resolved token
depends only on the token keys, and setting only `remoteKernelsToken`
with no `remoteKernelsBaseUrl` yields the default-tier base URL together
with the service-specific token. -/
theorem claim_C4 (c : Config) (ao : String) (s : ServiceType) :
    (∀ t, c.serviceToken s = some t → t ≠ "" → (resolve c ao s).token = t) ∧
    ((c.serviceToken s = none ∨ c.serviceToken s = some "") →
      ∀ t, c.getString "remoteToken" = some t → t ≠ "" →
        (resolve c ao s).token = t) ∧
    ((c.serviceToken s = none ∨ c.serviceToken s = some "") →
      (c.getString "remoteToken" = none ∨ c.getString "remoteToken" = some "") →
      (resolve c ao s).token = "") ∧
    (∀ c₂ : Config, c₂.serviceToken s = c.serviceToken s →
      c₂.getString "remoteToken" = c.getString "remoteToken" →
      ∀ ao₂, (resolve c₂ ao₂ s).token = (resolve c ao s).token) ∧
    (∀ t b, c.serviceToken ServiceType.kernels = some t → t ≠ "" →
      c.serviceBaseUrl ServiceType.kernels = none →
      c.getString "remoteBaseUrl" = some b → b ≠ "" →
      (resolve c ao ServiceType.kernels).baseUrl = b ∧
      (resolve c ao ServiceType.kernels).token = t) := by
  have h := resolveToken_cases c s
  refine ⟨fun t ht hne => h.1 t ht hne,
          fun h1 t ht hne => h.2.1 h1 t ht hne,
          fun h1 h2 => h.2.2 h1 h2,
          fun c₂ hsvc hdef ao₂ => ?_,
          fun t b ht htne hb hdb hdbne => ?_⟩
  · show resolveToken c₂ s = resolveToken c s
    rw [resolveToken, resolveToken, hsvc, hdef]
  · exact ⟨(resolveBaseUrl_cases c ao ServiceType.kernels).2.1 (Or.inl hb) b hdb hdbne,
           (resolveToken_cases c ServiceType.kernels).1 t ht htne⟩

/-- Witness for C4: with only `remoteKernelsToken` set service-specific
and base URL only at the default tier, the kernels service gets the
default base URL and the service-specific token. -/
theorem claim_C4_witness :
    (resolve (Config.ofList [("remoteBaseUrl", "http://a:8888"),
        ("remoteKernelsToken", "kt")] none) "http://a:8888" ServiceType.kernels).baseUrl
      = "http://a:8888" ∧
    (resolve (Config.ofList [("remoteBaseUrl", "http://a:8888"),
        ("remoteKernelsToken", "kt")] none) "http://a:8888" ServiceType.kernels).token
      = "kt" :=
  (claim_C4 (Config.ofList [("remoteBaseUrl", "http://a:8888"),
      ("remoteKernelsToken", "kt")] none) "http://a:8888" ServiceType.kernels).2.2.2.2
    "kt" "http://a:8888" rfl (by decide) rfl rfl (by decide)

/-! ## Helper lemmas about URL parsing -/

theorem takeScheme_eq (l : List Char) (sch rest : List Char)
    (h : takeScheme l = some (sch, rest)) :
    l = sch ++ ':' :: rest ∧ ∀ c ∈ sch, isSchemeChar c = true ∧ c ≠ ':' := by
  induction l generalizing sch with
  | nil => simp [takeScheme] at h
  | cons a as ih =>
    unfold takeScheme at h
    by_cases ha : a = ':'
    · simp [ha] at h
      obtain ⟨h1, h2⟩ := h
      subst h1; subst h2; subst ha
      simp
    · simp [ha] at h
      by_cases hsc : isSchemeChar a
      · simp [hsc] at h
        cases htk : takeScheme as with
        | none => rw [htk] at h; simp at h
        | some pr =>
          obtain ⟨sch', rest'⟩ := pr
          rw [htk] at h
          simp at h
          obtain ⟨h1, h2⟩ := h
          obtain ⟨ihl, ihm⟩ := ih sch' (by rw [htk, h2])
          subst h1
          refine ⟨by rw [ihl]; simp, fun c hc => ?_⟩
          rcases List.mem_cons.mp hc with hc | hc
          · subst hc; exact ⟨hsc, ha⟩
          · exact ihm c hc
      · simp [hsc] at h

theorem takeScheme_append (sch : List Char)
    (h : ∀ c ∈ sch, isSchemeChar c = true ∧ c ≠ ':') (z : List Char) :
    takeScheme (sch ++ ':' :: z) = some (sch, z) := by
  induction sch with
  | nil => simp [takeScheme]
  | cons a as ih =>
    obtain ⟨h1, h2⟩ := h a (List.mem_cons_self a as)
    have hrest := ih (fun c hc => h c (List.mem_cons_of_mem a hc))
    simp only [List.cons_append, takeScheme, if_neg h2, h1, if_true, List.append_eq, hrest]

theorem parseOriginL_spec (b o : List Char) (h : parseOriginL b = some o) :
    ∃ c sch host, o = (c :: sch) ++ ':' :: '/' :: '/' :: host ∧
      c.isAlpha = true ∧ (∀ x ∈ c :: sch, isSchemeChar x = true ∧ x ≠ ':') := by
  unfold parseOriginL at h
  cases htk : takeScheme b with
  | none => rw [htk] at h; simp at h
  | some pr =>
    obtain ⟨sch, rest⟩ := pr
    rw [htk] at h
    match sch, rest with
    | [], rest => simp at h
    | c :: sch', [] => simp at h
    | c :: sch', [x] =>
      revert h
      by_cases hx : x = '/' <;> simp [hx]
    | c :: sch', x :: y :: rest' =>
      revert h
      by_cases hx : x = '/'
      · by_cases hy : y = '/'
        · subst hx; subst hy
          simp only []
          intro h
          by_cases hc : c.isAlpha
          · rw [if_pos hc] at h
            by_cases hhost : rest'.takeWhile isHostChar = []
            · rw [if_pos hhost] at h; simp at h
            · rw [if_neg hhost] at h
              simp at h
              exact ⟨c, sch', rest'.takeWhile isHostChar, h.symm, hc,
                (takeScheme_eq b _ _ htk).2⟩
          · rw [if_neg hc] at h; simp at h
        · simp [hx, hy]
      · simp [hx]

theorem hasSchemeL_append_of_parseOriginL (b o : List Char)
    (h : parseOriginL b = some o) (z : List Char) :
    hasSchemeL (o ++ z) = true := by
  obtain ⟨c, sch, host, ho, hc, hchars⟩ := parseOriginL_spec b o h
  subst ho
  have : ((c :: sch) ++ ':' :: '/' :: '/' :: host) ++ z
      = (c :: sch) ++ ':' :: ('/' :: '/' :: host ++ z) := by simp
  rw [this, hasSchemeL, takeScheme_append (c :: sch) hchars]
  exact hc

/-! ## Helper lemmas about the rewriter -/

theorem rewriteL_idem (p b1 b2 q : List Char) (h : rewriteL p b1 = .ok q) :
    rewriteL q b2 = .ok q := by
  unfold rewriteL at h
  by_cases hp : p = []
  · rw [if_pos hp] at h
    simp at h
    subst h
    unfold rewriteL
    rw [if_pos hp]
  · rw [if_neg hp] at h
    by_cases hs : hasSchemeL p = true
    · rw [if_pos hs] at h
      simp at h
      subst h
      unfold rewriteL
      rw [if_neg hp, if_pos hs]
    · rw [if_neg hs] at h
      cases ho : parseOriginL b1 with
      | none => rw [ho] at h; simp at h
      | some o =>
        rw [ho] at h
        simp at h
        subst h
        have hq1 : o ++ '/' :: dropLeadingSlashL p ≠ [] := by simp
        have hq2 : hasSchemeL (o ++ '/' :: dropLeadingSlashL p) = true :=
          hasSchemeL_append_of_parseOriginL b1 o ho _
        unfold rewriteL
        rw [if_neg hq1, if_pos hq2]

theorem rewrite_ok_data (p b q : String) (h : rewrite p b = .ok q) :
    rewriteL p.data b.data = .ok q.data := by
  unfold rewrite at h
  cases hr : rewriteL p.data b.data with
  | error e => rw [hr] at h; simp [Except.map] at h
  | ok l =>
    rw [hr] at h
    simp [Except.map] at h
    rw [← h]

theorem parseOrigin_some_data (b o : String) (h : parseOrigin b = some o) :
    parseOriginL b.data = some o.data := by
  unfold parseOrigin at h
  cases hpo : parseOriginL b.data with
  | none => rw [hpo] at h; simp at h
  | some ol => rw [hpo] at h; simp at h; rw [← h]

theorem data_ne_nil_of_ne_empty (p : String) (hp : p ≠ "") : p.data ≠ [] :=
  fun hd => hp (String.ext (hd.trans rfl))

theorem rewrite_empty (b : String) : rewrite "" b = .ok "" := rfl

theorem rewrite_absolute (p b : String) (hs : hasScheme p = true) :
    rewrite p b = .ok p := by
  unfold rewrite rewriteL
  have hs' : hasSchemeL p.data = true := hs
  by_cases hpd : p.data = []
  · rw [if_pos hpd]
    show Except.ok (⟨p.data⟩ : String) = Except.ok p
    rfl
  · rw [if_neg hpd, if_pos hs']
    rfl

theorem rewrite_join (p b o : String) (hp : p ≠ "") (hs : hasScheme p = false)
    (hb : parseOrigin b = some o) :
    rewrite p b = .ok (o ++ "/" ++ dropLeadingSlash p) := by
  have hpd : p.data ≠ [] := data_ne_nil_of_ne_empty p hp
  have hol : parseOriginL b.data = some o.data := parseOrigin_some_data b o hb
  have hs' : ¬hasSchemeL p.data = true := by
    intro hc
    rw [show hasSchemeL p.data = hasScheme p from rfl, hs] at hc
    exact Bool.false_ne_true hc
  unfold rewrite rewriteL
  rw [if_neg hpd, if_neg hs', hol]
  show Except.ok (⟨o.data ++ '/' :: dropLeadingSlashL p.data⟩ : String) = _
  refine congrArg Except.ok (String.ext ?_)
  show o.data ++ '/' :: dropLeadingSlashL p.data
    = (o ++ "/" ++ dropLeadingSlash p).data
  rw [String.data_append, String.data_append]
  show o.data ++ '/' :: dropLeadingSlashL p.data
    = o.data ++ ['/'] ++ dropLeadingSlashL p.data
  simp

/-! ## Claims about the Resource URL Rewriter -/

/-- C5: the rewriter returns an empty resource path unchanged, returns an
already-absolute resource path (one with a scheme) unchanged, and joins
any other resource path to the base URL's origin with exactly one
separating slash, preserving the rest of the resource path (including any
query string or fragment); the spec's three concrete examples hold. -/
theorem claim_C5 :
    (∀ b, rewrite "" b = .ok "") ∧
    (∀ p b, hasScheme p = true → rewrite p b = .ok p) ∧
    (∀ p b o, p ≠ "" → hasScheme p = false → parseOrigin b = some o →
      rewrite p b = .ok (o ++ "/" ++ dropLeadingSlash p)) ∧
    rewrite "/static/logo.png" "http://host:8888"
      = .ok "http://host:8888/static/logo.png" ∧
    rewrite "static/logo.png?v=2" "http://host:8888/"
      = .ok "http://host:8888/static/logo.png?v=2" ∧
    rewrite "http://cdn.example/x.png" "http://host:8888"
      = .ok "http://cdn.example/x.png" :=
  ⟨rewrite_empty, rewrite_absolute, rewrite_join, rfl, rfl, rfl⟩

/-- Witness for C5 at a concrete relative path and base URL. -/
theorem claim_C5_witness :
    rewrite "logo.png" "http://h" = .ok "http://h/logo.png" := by
  have h := claim_C5.2.2.1 "logo.png" "http://h" "http://h"
    (by decide) rfl rfl
  rw [h]
  exact rfl

/-- C6: the rewriter is idempotent on its own outputs — any successful
rewrite result, rewritten a second time against any base URL, is returned
unchanged. -/
theorem claim_C6 (p b1 b2 q : String) (h : rewrite p b1 = .ok q) :
    rewrite q b2 = .ok q := by
  have h2 := rewriteL_idem p.data b1.data b2.data q.data (rewrite_ok_data p b1 q h)
  unfold rewrite
  rw [h2]
  show Except.ok (⟨q.data⟩ : String) = Except.ok q
  rfl

/-- Witness for C6: rewriting the output of a first rewrite against a
different base URL leaves it unchanged. -/
theorem claim_C6_witness :
    rewrite "http://host:8888/static/logo.png" "http://other:9999"
      = .ok "http://host:8888/static/logo.png" :=
  claim_C6 "/static/logo.png" "http://host:8888" "http://other:9999"
    "http://host:8888/static/logo.png" rfl

/-! ## Claims about the derived WebSocket URL -/

theorem switchHttpWs_http (rest : List Char) :
    switchHttpWs ('h' :: 't' :: 't' :: 'p' :: rest) = 'w' :: 's' :: rest := rfl

theorem data_http_append (r : String) :
    ("http://" ++ r).data = 'h' :: 't' :: 't' :: 'p' :: ':' :: '/' :: '/' :: r.data := by
  rw [String.data_append]; rfl

theorem data_https_append (r : String) :
    ("https://" ++ r).data
      = 'h' :: 't' :: 't' :: 'p' :: 's' :: ':' :: '/' :: '/' :: r.data := by
  rw [String.data_append]; rfl

/-- C7: the WebSocket URL is the resolved base URL with its scheme
switched (http becomes ws, https becomes wss), and the token is appended
as the `token` query parameter exactly when the append-token decision
resolved true. -/
theorem claim_C7 (b t r : String) (ap : Bool) (o : String)
    (hb : parseOrigin b = some o) :
    (b = "http://" ++ r →
      deriveWsUrl b t ap
        = .ok (if ap then "ws://" ++ r ++ "?token=" ++ t else "ws://" ++ r)) ∧
    (b = "https://" ++ r →
      deriveWsUrl b t ap
        = .ok (if ap then "wss://" ++ r ++ "?token=" ++ t else "wss://" ++ r)) := by
  have hol : parseOriginL b.data = some o.data := parseOrigin_some_data b o hb
  constructor
  · rintro rfl
    unfold deriveWsUrl deriveWsUrlL
    rw [hol, data_http_append, switchHttpWs_http]
    cases ap with
    | true =>
      refine congrArg Except.ok (String.ext ?_)
      show 'w' :: 's' :: ':' :: '/' :: '/' :: r.data
            ++ '?' :: 't' :: 'o' :: 'k' :: 'e' :: 'n' :: '=' :: t.data
          = ("ws://" ++ r ++ "?token=" ++ t).data
      rw [String.data_append, String.data_append, String.data_append]
      show _ = (['w', 's', ':', '/', '/'] ++ r.data)
        ++ ['?', 't', 'o', 'k', 'e', 'n', '='] ++ t.data
      simp
    | false =>
      refine congrArg Except.ok (String.ext ?_)
      show 'w' :: 's' :: ':' :: '/' :: '/' :: r.data = ("ws://" ++ r).data
      rw [String.data_append]
      rfl
  · rintro rfl
    unfold deriveWsUrl deriveWsUrlL
    rw [hol, data_https_append,
      show ('h' :: 't' :: 't' :: 'p' :: 's' :: ':' :: '/' :: '/' :: r.data)
          = ('h' :: 't' :: 't' :: 'p' :: ('s' :: ':' :: '/' :: '/' :: r.data)) from rfl,
      switchHttpWs_http]
    cases ap with
    | true =>
      refine congrArg Except.ok (String.ext ?_)
      show 'w' :: 's' :: 's' :: ':' :: '/' :: '/' :: r.data
            ++ '?' :: 't' :: 'o' :: 'k' :: 'e' :: 'n' :: '=' :: t.data
          = ("wss://" ++ r ++ "?token=" ++ t).data
      rw [String.data_append, String.data_append, String.data_append]
      show _ = (['w', 's', 's', ':', '/', '/'] ++ r.data)
        ++ ['?', 't', 'o', 'k', 'e', 'n', '='] ++ t.data
      simp
    | false =>
      refine congrArg Except.ok (String.ext ?_)
      show 'w' :: 's' :: 's' :: ':' :: '/' :: '/' :: r.data = ("wss://" ++ r).data
      rw [String.data_append]
      rfl

/-- Witness for C7: a cross-origin http base URL with the token appended,
and an https base URL without it. -/
theorem claim_C7_witness :
    deriveWsUrl "http://a:1" "tok" true = .ok "ws://a:1?token=tok" ∧
    deriveWsUrl "https://b:2" "tok" false = .ok "wss://b:2" := by
  constructor
  · have h := (claim_C7 "http://a:1" "tok" "a:1" true "http://a:1" rfl).1 rfl
    rw [h]
    exact rfl
  · have h := (claim_C7 "https://b:2" "tok" "b:2" false "https://b:2" rfl).2 rfl
    rw [h]
    exact rfl

/-! ## Claims about error handling and the plugin registrations -/

theorem parseOrigin_none_data (b : String) (h : parseOrigin b = none) :
    parseOriginL b.data = none := by
  unfold parseOrigin at h
  cases hpo : parseOriginL b.data with
  | none => rfl
  | some ol => rw [hpo] at h; simp at h

theorem emptyConfig_serviceBaseUrl (s : ServiceType) :
    emptyConfig.serviceBaseUrl s = none := by
  cases s <;> rfl

/-- C8: a resolved base URL that cannot be parsed as a URL makes both the
resource-URL rewriter (on a path that needs joining) and the
WebSocket-URL derivation signal a configuration error instead of
returning a malformed endpoint; missing configuration, by contrast, is
never an error — the resolver falls back to the hosting application's
origin, against which both operations succeed. -/
theorem claim_C8 (b : String) (hb : parseOrigin b = none) :
    (∀ p, p ≠ "" → hasScheme p = false → rewrite p b = .error "Invalid base URL") ∧
    (∀ t ap, deriveWsUrl b t ap = .error "Invalid base URL") ∧
    (∀ (ao : String) (s : ServiceType) (p t : String) (ap : Bool),
      parseOrigin ao = some ao → p ≠ "" → hasScheme p = false →
      (∃ u, rewrite p (resolve emptyConfig ao s).baseUrl = .ok u) ∧
      (∃ w, deriveWsUrl (resolve emptyConfig ao s).baseUrl t ap = .ok w)) := by
  have hbl : parseOriginL b.data = none := parseOrigin_none_data b hb
  refine ⟨fun p hp hs => ?_, fun t ap => ?_, fun ao s p t ap hao hp hs => ?_⟩
  · have hpd : p.data ≠ [] := data_ne_nil_of_ne_empty p hp
    have hs' : ¬hasSchemeL p.data = true := by
      intro hc
      rw [show hasSchemeL p.data = hasScheme p from rfl, hs] at hc
      exact Bool.false_ne_true hc
    unfold rewrite rewriteL
    rw [if_neg hpd, if_neg hs', hbl]
    rfl
  · unfold deriveWsUrl deriveWsUrlL
    rw [hbl]
    rfl
  · have hbase : (resolve emptyConfig ao s).baseUrl = ao :=
      (resolveBaseUrl_cases emptyConfig ao s).2.2
        (Or.inl (emptyConfig_serviceBaseUrl s)) (Or.inl rfl)
    constructor
    · exact ⟨ao ++ "/" ++ dropLeadingSlash p, by rw [hbase]; exact rewrite_join p ao ao hp hs hao⟩
    · have hol : parseOriginL ao.data = some ao.data := parseOrigin_some_data ao ao hao
      rw [hbase]
      unfold deriveWsUrl deriveWsUrlL
      rw [hol]
      exact ⟨_, rfl⟩

/-- Witness for C8: the unparsable base URL `notaurl` makes both
operations fail, while the zero-configuration fallback succeeds. -/
theorem claim_C8_witness :
    rewrite "/a" "notaurl" = .error "Invalid base URL" ∧
    deriveWsUrl "notaurl" "tok" true = .error "Invalid base URL" ∧
    (∃ u, rewrite "/a" (resolve emptyConfig "http://a:8888" ServiceType.kernels).baseUrl
      = .ok u) ∧
    (∃ w, deriveWsUrl (resolve emptyConfig "http://a:8888" ServiceType.kernels).baseUrl
      "tok" true = .ok w) := by
  have h := claim_C8 "notaurl" rfl
  have h3 := h.2.2 "http://a:8888" ServiceType.kernels "/a" "tok" true
    rfl (by decide) rfl
  exact ⟨h.1 "/a" (by decide) rfl, h.2.1 "tok" true, h3.1, h3.2⟩

/-- C9: the process-wide config-section-manager singleton is set by
exactly one plugin (the config-section-manager plugin of `src/index.ts`),
and the registration guard assigns it exactly once: registering into the
empty slot succeeds, while a second registration attempt fails with an
explicit error rather than silently overwriting the first registration. -/
theorem claim_C9 (M : Type) (m m' : M) (st : Option M) :
    ((plugins.filter (fun p => p.setsConfigSectionManager)).map PluginDef.id
      = ["jupyterlite-remote-server:config-section-manager"]) ∧
    setConfigSectionManager (none : Option M) m = .ok (some m) ∧
    setConfigSectionManager (some m') m = .error "ConfigSectionManager already set" ∧
    (∀ st', setConfigSectionManager st m = .ok st' → st = none ∧ st' = some m) := by
  refine ⟨rfl, rfl, rfl, fun st' h => ?_⟩
  cases st with
  | none =>
    simp [setConfigSectionManager] at h
    exact ⟨rfl, h.symm⟩
  | some x => simp [setConfigSectionManager] at h

/-- Witness for C9: a concrete first and second registration. -/
theorem claim_C9_witness :
    setConfigSectionManager (none : Option Nat) 0 = .ok (some 0) ∧
    setConfigSectionManager (some 1) 0 = .error "ConfigSectionManager already set" :=
  ⟨(claim_C9 Nat 0 1 none).2.1, (claim_C9 Nat 0 1 none).2.2.1⟩

/-- C10: among the plugins of `src/index.ts`, only the top-level
server-settings plugin resolves with the `default` pseudo-ServiceType,
and the kernel manager, kernel-spec manager and session manager plugins
all resolve with the `kernels` service type. -/
theorem claim_C10 :
    (∀ p ∈ plugins,
      (p.serviceType = ServiceType.defaultType ↔
        p.id = "jupyterlite-remote-server:server-settings")) ∧
    (∀ p ∈ plugins,
      (p.id = "jupyterlite-remote-server:kernel-manager" ∨
       p.id = "jupyterlite-remote-server:kernel-spec-manager" ∨
       p.id = "jupyterlite-remote-server:session-manager") →
      p.serviceType = ServiceType.kernels) := by decide

/-- Witness for C10: the kernel-spec-manager plugin registration resolves
with the `kernels` service type. -/
theorem claim_C10_witness :
    (PluginDef.mk "jupyterlite-remote-server:kernel-spec-manager"
      ServiceType.kernels false).serviceType = ServiceType.kernels :=
  claim_C10.2 _ (by decide) (Or.inr (Or.inl rfl))

end RemoteServer
